import Mathlib

/-!
Shallow embedding of `backend/main.py` from the `ai-video-call` repository:
the in-memory Room Registry (`active_rooms`), the Connection Directory
(`room_connections`), the HTTP handlers `create_room` / `get_room`, and the
Socket.IO signaling handlers `join`, `offer`, `answer`, `candidate`, `leave`,
`end`, `disconnect`.

Modelling conventions:
* Python dicts keyed by strings become association lists `List (String × α)`
  with `dictGet` (lookup of the unique binding for a key), `dictSet`
  (update-in-place or append a fresh binding) mirroring `d[k]` / `k in d` /
  `d[k] = v`.
* Timestamps are natural numbers (seconds).  `timedelta(hours=2)` is `7200`.
  The `isoformat` / `fromisoformat` round trip of `expiresAt` performed by the
  source is modelled as the identity on that number.
* Client-supplied JSON values (`userId`, `role`, `sdp`, `candidate`, `from`,
  `reason`) are modelled by the opaque value type `JVal`; `data.get` of an
  absent key yields Python `None`, modelled as `JVal.vNone` (or `none` for the
  `roomId` field, which the handlers use as a dict key and in a truthiness
  test, so it is modelled as `Option String`, `none` covering an absent or
  non-string value and `some ""` the empty string — both falsy).
* The Socket.IO server's room membership (the Transport Adapter's broadcast
  groups, mutated by `sio.enter_room` / `sio.leave_room` and consulted by
  `sio.emit(..., room=..., skip_sid=...)`) is the `sio_rooms` component of the
  state; per the Socket.IO semantics a group is a *set* of session ids:
  `enter_room` is idempotent and `leave_room` removes the id entirely.
* Each handler is a pure function from the pre-state (and the event payload)
  to the post-state plus the list of emissions (`sio.emit` calls) it performs,
  in program order.  `deliveredTo` says whether a given emission reaches a
  given session id under given broadcast groups: a `room=` emission reaches
  exactly the members of the group minus the `skip_sid`.
* Python expression evaluation that raises is modelled with `Except`:
  `create_room` evaluates the attribute access `datetime.timezone` (line 75 of
  the source) where the name `datetime` is bound to the *class*
  `datetime.datetime` by `from datetime import datetime`; the class has no
  attribute named `timezone` (that name lives in the `datetime` *module*), so
  the access raises `AttributeError`.  `pyGetattr` models attribute lookup
  against the list of public attributes of the class.
-/

namespace Backend

deriving instance DecidableEq for Except

/-- Client-supplied JSON values carried opaquely through the relay:
a string, Python `None`, or some other opaque object (e.g. an SDP dict),
identified by a tag for equality purposes. -/
inductive JVal where
  | vStr (s : String)
  | vNone
  | vObj (tag : String)
  deriving DecidableEq

/-- Lookup in a string-keyed Python dict: the value of the first (unique)
binding of the key, if any (`d[k]` when `k in d`, else absence). -/
def dictGet {α : Type} : List (String × α) → String → Option α
  | [], _ => none
  | (k', v') :: rest, k => if k' = k then some v' else dictGet rest k

/-- Python dict assignment `d[k] = v`: replaces the binding of `k` in place if
present, otherwise appends a fresh binding (insertion order preserved). -/
def dictSet {α : Type} : List (String × α) → String → α → List (String × α)
  | [], k, v => [(k, v)]
  | (k', v') :: rest, k, v =>
      if k' = k then (k, v) :: rest else (k', v') :: dictSet rest k v

/-- One entry of `active_rooms`: the `room_info` dict built by `create_room`. -/
structure RoomInfo where
  roomId : String
  companionId : Option String
  userId : String
  expiresAt : Nat
  status : String
  createdAt : Nat
  deriving DecidableEq

/-- Request body of `POST /api/video/rooms` (Pydantic model `RoomCreate`). -/
structure RoomCreate where
  userId : String
  companionId : Option String
  deriving DecidableEq

/-- Response model `RoomResponse` (no `createdAt` field; the extra dict key is
ignored by Pydantic when constructing the response). -/
structure RoomResponse where
  roomId : String
  companionId : Option String
  userId : String
  expiresAt : Nat
  status : String
  deriving DecidableEq

/-- Builds `RoomResponse(**room_info)`. -/
def roomResponseOf (r : RoomInfo) : RoomResponse :=
  { roomId := r.roomId, companionId := r.companionId, userId := r.userId,
    expiresAt := r.expiresAt, status := r.status }

/-- The whole mutable server state: the Room Registry `active_rooms`, the
Connection Directory `room_connections` (Python *lists* of session ids), and
the Socket.IO broadcast groups `sio_rooms`. -/
structure ServerState where
  active_rooms : List (String × RoomInfo)
  room_connections : List (String × List String)
  sio_rooms : List (String × List String)
  deriving DecidableEq

/-- Destination of one `sio.emit` call: `room=sid` unicast to a single session
(every session is a member of its own personal group), or `room=room_id` with
an optional `skip_sid`. -/
inductive Target where
  | session (sid : String)
  | room (roomId : String) (skip_sid : Option String)
  deriving DecidableEq

/-- One `sio.emit(event, payload, ...)` call: event name, payload dict, and
destination. -/
structure Emission where
  event : String
  payload : List (String × JVal)
  target : Target
  deriving DecidableEq

/-- Members of a Socket.IO broadcast group (empty if the group is absent). -/
def groupMembers (g : List (String × List String)) (room : String) : List String :=
  (dictGet g room).getD []

/-- Whether an emission is delivered to session `x`, given the broadcast
groups `g` at emission time: a unicast reaches exactly its addressee; a
`room=` emission reaches the members of the group except the `skip_sid`. -/
def deliveredTo (g : List (String × List String)) (e : Emission) (x : String) : Bool :=
  match e.target with
  | Target.session s => decide (s = x)
  | Target.room r skip => decide (x ∈ groupMembers g r) && decide (skip ≠ some x)

/-- Models `sio.enter_room(sid, room)`: group membership is a set, so entering
a group one is already in is a no-op; otherwise the sid is added (the group is
created on first use). -/
def enter_room (g : List (String × List String)) (sid room : String) :
    List (String × List String) :=
  if sid ∈ groupMembers g room then g
  else dictSet g room (groupMembers g room ++ [sid])

/-- Models `sio.leave_room(sid, room)`: removes the sid from the group's
member set entirely; no-op if the group is absent. -/
def leave_room (g : List (String × List String)) (sid room : String) :
    List (String × List String) :=
  match dictGet g room with
  | none => g
  | some members => dictSet g room (members.filter (fun y => decide (y ≠ sid)))

/-- Python `list.remove(x)`: removes the first occurrence of `x` (the handlers
only call it under an `x in l` guard, so the absent case never raises). -/
def removeFirst : List String → String → List String
  | [], _ => []
  | y :: rest, x => if y = x then rest else y :: removeFirst rest x

/-- Number of occurrences of `x` in `l` (to reason about the list-vs-set
behaviour of the Connection Directory). -/
def countOcc : List String → String → Nat
  | [], _ => 0
  | y :: rest, x => (if y = x then 1 else 0) + countOcc rest x

/-- A Python `AttributeError` raised by an attribute access. -/
inductive PyError where
  | attributeError (objName attrName : String)
  deriving DecidableEq

/-- Python attribute lookup on an object whose public attributes are `attrs`:
succeeds iff the name is among them, otherwise raises `AttributeError`. -/
def pyGetattr (objName : String) (attrs : List String) (attrName : String) :
    Except PyError Unit :=
  if attrs.contains attrName then Except.ok ()
  else Except.error (PyError.attributeError objName attrName)

/-- The public attributes of the class `datetime.datetime` (which the name
`datetime` denotes in the source after `from datetime import datetime`):
constructors, class methods, instance methods and properties.  The name
`timezone` is *not* among them — `timezone` is a separate class of the
`datetime` module, not an attribute of the `datetime` class. -/
def datetimeClassAttrs : List String :=
  ["min", "max", "resolution", "year", "month", "day", "hour", "minute",
   "second", "microsecond", "tzinfo", "fold", "today", "now", "utcnow",
   "fromtimestamp", "utcfromtimestamp", "fromordinal", "fromisoformat",
   "fromisocalendar", "combine", "strptime", "date", "time", "timetz",
   "replace", "astimezone", "timestamp", "utctimetuple", "timetuple",
   "toordinal", "weekday", "isoweekday", "isocalendar", "isoformat", "ctime",
   "strftime", "tzname", "utcoffset", "dst"]

/-- Value of `timedelta(hours=2)` in seconds. -/
def twoHours : Nat := 7200

/-- Handler of `POST /api/video/rooms` (`create_room`, source lines 71–89).
Here `now` is the
current time and `freshRoomId` the value of `str(uuid.uuid4())`.  The first
statement of the body evaluates `datetime.now(datetime.timezone.utc)`; the
argument expression `datetime.timezone` is an attribute lookup of `timezone`
on the `datetime` class and raises `AttributeError` before anything is stored,
so the remainder of the body (building `room_info`, registering the room and
its empty connection list, returning the response) is dead code.  That
remainder is still modelled, using `now` for both timestamp expressions (both
of which would raise identically). -/
def create_room (now : Nat) (freshRoomId : String) (st : ServerState)
    (room_data : RoomCreate) : Except PyError (ServerState × RoomResponse) :=
  let room_id := freshRoomId
  match pyGetattr "datetime" datetimeClassAttrs "timezone" with
  | Except.error e => Except.error e
  | Except.ok _ =>
    let expires_at := now + twoHours
    let room_info : RoomInfo :=
      { roomId := room_id, companionId := room_data.companionId,
        userId := room_data.userId, expiresAt := expires_at,
        status := "active", createdAt := now }
    Except.ok
      ({ st with
          active_rooms := dictSet st.active_rooms room_id room_info,
          room_connections := dictSet st.room_connections room_id [] },
       roomResponseOf room_info)

/-- HTTP error raised by `get_room` via `HTTPException`. -/
inductive HTTPError where
  | notFound
  | gone
  deriving DecidableEq

/-- The HTTP status code attached to each error. -/
def statusCode : HTTPError → Nat
  | HTTPError.notFound => 404
  | HTTPError.gone => 410

/-- Handler of `GET /api/video/rooms/{room_id}` (`get_room`, source lines
91–105):
404 if the id is absent; otherwise, if `datetime.utcnow() > expires_at`, the
stored room's `status` is set to `"expired"` and 410 is raised; otherwise the
room is returned unchanged. -/
def get_room (now : Nat) (st : ServerState) (room_id : String) :
    ServerState × Except HTTPError RoomResponse :=
  match dictGet st.active_rooms room_id with
  | none => (st, Except.error HTTPError.notFound)
  | some room_info =>
    if now > room_info.expiresAt then
      ({ st with
          active_rooms :=
            dictSet st.active_rooms room_id { room_info with status := "expired" } },
       Except.error HTTPError.gone)
    else
      (st, Except.ok (roomResponseOf room_info))

/-- The `status` of the registered room `rid`, if any. -/
def statusOf (st : ServerState) (rid : String) : Option String :=
  (dictGet st.active_rooms rid).map RoomInfo.status

/-- Payload of the `join` event (`data.get` of each key; `roomId` as an
optional string, `none` covering an absent value). -/
structure JoinData where
  roomId : Option String
  userId : JVal
  role : JVal
  deriving DecidableEq

/-- Payload of the `offer` / `answer` / `candidate` events: the handlers read
`roomId`, `sdp` (offer/answer), `candidate` (candidate) and `from`
(local variable `from_user`). -/
structure SignalData where
  roomId : Option String
  sdp : JVal
  candidate : JVal
  from_user : JVal
  deriving DecidableEq

/-- Payload of the `leave` event. -/
structure LeaveData where
  roomId : Option String
  userId : JVal
  deriving DecidableEq

/-- Payload of the `end` event. -/
structure EndData where
  roomId : Option String
  reason : JVal
  deriving DecidableEq

/-- Socket.IO `join` handler (source lines 210–236): if `roomId` is falsy or
not a key of `active_rooms`, unicast `error{message}` back to the sender and
stop; otherwise enter the sender into the broadcast group, append it to the
room's connection list (created on first use), and broadcast
`user_joined{userId, role}` to the room excluding the sender. -/
def join (st : ServerState) (sid : String) (data : JoinData) :
    ServerState × List Emission :=
  match data.roomId with
  | none =>
      (st, [⟨"error", [("message", JVal.vStr "Room not found")], Target.session sid⟩])
  | some room_id =>
    if room_id = "" ∨ dictGet st.active_rooms room_id = none then
      (st, [⟨"error", [("message", JVal.vStr "Room not found")], Target.session sid⟩])
    else
      let conns := (dictGet st.room_connections room_id).getD []
      ({ st with
          sio_rooms := enter_room st.sio_rooms sid room_id,
          room_connections := dictSet st.room_connections room_id (conns ++ [sid]) },
       [⟨"user_joined", [("userId", data.userId), ("role", data.role)],
         Target.room room_id (some sid)⟩])

/-- Socket.IO `offer` handler (source lines 238–256): silently dropped when
`roomId` is falsy; otherwise broadcast `offer{from, sdp}` to the room
excluding the sender, with no state change. -/
def offer (st : ServerState) (sid : String) (data : SignalData) :
    ServerState × List Emission :=
  match data.roomId with
  | none => (st, [])
  | some room_id =>
    if room_id = "" then (st, [])
    else
      (st, [⟨"offer", [("from", data.from_user), ("sdp", data.sdp)],
            Target.room room_id (some sid)⟩])

/-- Socket.IO `answer` handler (source lines 258–276): same as `offer` with
event name `answer`. -/
def answer (st : ServerState) (sid : String) (data : SignalData) :
    ServerState × List Emission :=
  match data.roomId with
  | none => (st, [])
  | some room_id =>
    if room_id = "" then (st, [])
    else
      (st, [⟨"answer", [("from", data.from_user), ("sdp", data.sdp)],
            Target.room room_id (some sid)⟩])

/-- Socket.IO `candidate` handler (source lines 278–294): same shape, payload
`candidate{from, candidate}`. -/
def candidate (st : ServerState) (sid : String) (data : SignalData) :
    ServerState × List Emission :=
  match data.roomId with
  | none => (st, [])
  | some room_id =>
    if room_id = "" then (st, [])
    else
      (st, [⟨"candidate", [("from", data.from_user), ("candidate", data.candidate)],
            Target.room room_id (some sid)⟩])

/-- Socket.IO `leave` handler (source lines 296–318): silently dropped when
`roomId` is falsy; otherwise leave the broadcast group, remove the first
occurrence of the sender from the room's connection list if present
(`if room_id in room_connections and sid in room_connections[room_id]`),
and broadcast `user_left{userId}` to the room with no `skip_sid`. -/
def leave (st : ServerState) (sid : String) (data : LeaveData) :
    ServerState × List Emission :=
  match data.roomId with
  | none => (st, [])
  | some room_id =>
    if room_id = "" then (st, [])
    else
      let st1 := { st with sio_rooms := leave_room st.sio_rooms sid room_id }
      let st2 :=
        match dictGet st1.room_connections room_id with
        | none => st1
        | some conns =>
          if sid ∈ conns then
            { st1 with
                room_connections :=
                  dictSet st1.room_connections room_id (removeFirst conns sid) }
          else st1
      (st2, [⟨"user_left", [("userId", data.userId)], Target.room room_id none⟩])

/-- Socket.IO `end` handler (source lines 320–340): silently dropped when
`roomId` is falsy; otherwise set the room's `status` to `"ended"` if the id is
registered (no-op otherwise), and broadcast `call_ended{reason}` to the room
with no `skip_sid`. -/
def end_event (st : ServerState) (sid : String) (data : EndData) :
    ServerState × List Emission :=
  match data.roomId with
  | none => (st, [])
  | some room_id =>
    if room_id = "" then (st, [])
    else
      let st' :=
        match dictGet st.active_rooms room_id with
        | none => st
        | some info =>
          { st with
              active_rooms :=
                dictSet st.active_rooms room_id { info with status := "ended" } }
      (st', [⟨"call_ended", [("reason", data.reason)], Target.room room_id none⟩])

/-- Socket.IO `disconnect` handler (source lines 198–208): iterate over all
entries of `room_connections` in order; wherever the sid occurs, remove its
first occurrence from that list and broadcast `leave{userId = sid}` to that
room with `skip_sid = sid`. -/
def disconnect (st : ServerState) (sid : String) : ServerState × List Emission :=
  ({ st with
      room_connections :=
        st.room_connections.map
          (fun p => (p.1, if sid ∈ p.2 then removeFirst p.2 sid else p.2)) },
   st.room_connections.filterMap
     (fun p =>
       if sid ∈ p.2 then
         some ⟨"leave", [("userId", JVal.vStr sid)], Target.room p.1 (some sid)⟩
       else none))

/-! Concrete states used to instantiate the theorems below. -/

/-- A freshly created, still active room `"r"`. -/
def roomActive : RoomInfo :=
  { roomId := "r", companionId := none, userId := "u1", expiresAt := 7200,
    status := "active", createdAt := 0 }

/-- Room `"r"` after an `end` event (`status = "ended"`), with its 2-hour
expiry timestamp in the past relative to the reads below. -/
def roomEnded : RoomInfo :=
  { roomId := "r", companionId := none, userId := "u1", expiresAt := 7200,
    status := "ended", createdAt := 0 }

/-- Room `"r"` with `status = "expired"`. -/
def roomExpired : RoomInfo :=
  { roomId := "r", companionId := none, userId := "u1", expiresAt := 7200,
    status := "expired", createdAt := 0 }

/-- State with the active room `"r"` registered and nobody connected. -/
def stActive : ServerState := ⟨[("r", roomActive)], [("r", [])], []⟩

/-- State with room `"r"` ended and time-expired. -/
def stEnded : ServerState := ⟨[("r", roomEnded)], [("r", [])], []⟩

/-- State with room `"r"` marked expired (and time-expired). -/
def stExpired : ServerState := ⟨[("r", roomExpired)], [("r", [])], []⟩

/-- State with room `"r"` active and sessions `"s1"`, `"s2"` joined. -/
def stTwoMembers : ServerState :=
  ⟨[("r", roomActive)], [("r", ["s1", "s2"])], [("r", ["s1", "s2"])]⟩

/-- State where session `"s"` is joined to two different rooms. -/
def stTwoRooms : ServerState :=
  ⟨[], [("r1", ["s", "t"]), ("r2", ["s"])], [("r1", ["s", "t"]), ("r2", ["s"])]⟩

/-- A well-formed `join` payload for room `"r"`. -/
def dJoin : JoinData := ⟨some "r", JVal.vStr "u1", JVal.vStr "host"⟩

/-! Helper lemmas about the dictionary and list primitives. -/

theorem dictGet_dictSet {α : Type} (d : List (String × α)) (k q : String) (v : α) :
    dictGet (dictSet d k v) q = if k = q then some v else dictGet d q := by
  induction d with
  | nil =>
    by_cases h : k = q <;> simp [dictGet, dictSet, h]
  | cons p rest ih =>
    obtain ⟨k', v'⟩ := p
    by_cases h1 : k' = k
    · subst h1
      by_cases h2 : k' = q <;> simp [dictGet, dictSet, h2]
    · by_cases h2 : k' = q
      · subst h2
        have hk : ¬ k = k' := fun h => h1 h.symm
        simp [dictGet, dictSet, h1, hk]
      · simp [dictGet, dictSet, h1, h2, ih]

theorem dictSet_dictSet {α : Type} (d : List (String × α)) (k : String) (v w : α) :
    dictSet (dictSet d k v) k w = dictSet d k w := by
  induction d with
  | nil => simp [dictSet]
  | cons p rest ih =>
    obtain ⟨k', v'⟩ := p
    by_cases h : k' = k
    · simp [dictSet, h]
    · simp [dictSet, h, ih]

theorem dictGet_map {α : Type} (d : List (String × α)) (f : α → α) (k : String) :
    dictGet (d.map (fun p => (p.1, f p.2))) k = (dictGet d k).map f := by
  induction d with
  | nil => simp [dictGet]
  | cons p rest ih =>
    by_cases h : p.1 = k <;> simp [dictGet, h, ih]

theorem dictGet_mem {α : Type} {d : List (String × α)} {k : String} {v : α}
    (h : dictGet d k = some v) : (k, v) ∈ d := by
  induction d with
  | nil => simp [dictGet] at h
  | cons p rest ih =>
    obtain ⟨k', v'⟩ := p
    by_cases hk : k' = k
    · subst hk
      simp [dictGet] at h
      subst h
      exact List.mem_cons_self _ _
    · simp [dictGet, hk] at h
      exact List.mem_cons_of_mem _ (ih h)

theorem mem_dictGet_of_nodup {α : Type} {d : List (String × α)} {k : String} {v : α}
    (hnd : (d.map Prod.fst).Nodup) (h : (k, v) ∈ d) : dictGet d k = some v := by
  induction d with
  | nil => cases h
  | cons p rest ih =>
    obtain ⟨k', v'⟩ := p
    simp only [List.map_cons, List.nodup_cons] at hnd
    rcases List.mem_cons.mp h with h | h
    · injection h with h1 h2
      subst h1; subst h2
      simp [dictGet]
    · by_cases hk : k' = k
      · subst hk
        exact absurd (List.mem_map.mpr ⟨(k', v), h, rfl⟩) hnd.1
      · simpa [dictGet, hk] using ih hnd.2 h

theorem one_le_countOcc_of_mem {l : List String} {x : String} (h : x ∈ l) :
    1 ≤ countOcc l x := by
  induction l with
  | nil => cases h
  | cons y rest ih =>
    rcases List.mem_cons.mp h with h | h
    · simp [countOcc, h.symm]
    · calc 1 ≤ countOcc rest x := ih h
        _ ≤ (if y = x then 1 else 0) + countOcc rest x := Nat.le_add_left _ _

theorem not_mem_removeFirst {l : List String} {x : String} (h : countOcc l x ≤ 1) :
    x ∉ removeFirst l x := by
  induction l with
  | nil => simp [removeFirst]
  | cons y rest ih =>
    by_cases hy : y = x
    · simp only [removeFirst, if_pos hy]
      intro hmem
      have h1 := one_le_countOcc_of_mem hmem
      simp only [countOcc, if_pos hy] at h
      omega
    · simp only [removeFirst, if_neg hy]
      intro hmem
      rcases List.mem_cons.mp hmem with h2 | h2
      · exact hy h2.symm
      · have hle : countOcc rest x ≤ 1 := by
          simp only [countOcc, if_neg hy] at h
          omega
        exact ih hle h2

theorem mem_enter_room (g : List (String × List String)) (sid room : String) :
    sid ∈ groupMembers (enter_room g sid room) room := by
  simp only [enter_room, groupMembers]
  by_cases h : sid ∈ (dictGet g room).getD []
  · rw [if_pos h]; exact h
  · rw [if_neg h, dictGet_dictSet]
    simp

theorem enter_room_idem (g : List (String × List String)) (sid room : String) :
    enter_room (enter_room g sid room) sid room = enter_room g sid room := by
  have h := mem_enter_room g sid room
  show (if sid ∈ groupMembers (enter_room g sid room) room then enter_room g sid room
        else dictSet (enter_room g sid room) room
          (groupMembers (enter_room g sid room) room ++ [sid])) = enter_room g sid room
  rw [if_pos h]

theorem not_mem_leave_room (g : List (String × List String)) (sid room : String) :
    sid ∉ groupMembers (leave_room g sid room) room := by
  match h : dictGet g room with
  | none => simp [leave_room, groupMembers, h]
  | some members =>
    simp [leave_room, groupMembers, h, dictGet_dictSet, List.mem_filter]

/-! The claims. -/

/-- Claim C1: the spec says `create(userId, companionId)` always succeeds and
no error is raised on the creation path.  The code contradicts this: the body
of `create_room` evaluates `datetime.now(datetime.timezone.utc)`, and because
`from datetime import datetime` binds `datetime` to the class, the attribute
access `datetime.timezone` raises `AttributeError` on every request, before
any room is allocated or stored.  This theorem evaluates the embedded handler:
for every current time, generated id, server state and request body, creation
fails with exactly that `AttributeError`. -/
theorem c1_create_room_always_raises (now : Nat) (freshRoomId : String)
    (st : ServerState) (room_data : RoomCreate) :
    create_room now freshRoomId st room_data =
      Except.error (PyError.attributeError "datetime" "timezone") := rfl

/-- Claim C2: `get(roomId)` fails with `NotFound` (404) when the id is absent;
when present it succeeds as long as `now > expiresAt` fails, and once
`now > expiresAt` it fails with `Gone` (410, distinguishable from 404) and, as
a side effect, flips the stored room's `status` to `"expired"` (touching
nothing else) before returning the error. -/
theorem c2_get_room_contract (now : Nat) (st : ServerState) (rid : String) :
    (dictGet st.active_rooms rid = none →
      get_room now st rid = (st, Except.error HTTPError.notFound)) ∧
    (∀ info, dictGet st.active_rooms rid = some info →
      (¬ now > info.expiresAt →
        get_room now st rid = (st, Except.ok (roomResponseOf info))) ∧
      (now > info.expiresAt →
        (get_room now st rid).2 = Except.error HTTPError.gone ∧
        statusOf (get_room now st rid).1 rid = some "expired" ∧
        (get_room now st rid).1.room_connections = st.room_connections ∧
        (get_room now st rid).1.sio_rooms = st.sio_rooms)) ∧
    statusCode HTTPError.gone = 410 ∧ statusCode HTTPError.notFound = 404 ∧
    HTTPError.gone ≠ HTTPError.notFound := by
  refine ⟨fun h => by simp [get_room, h], fun info h => ⟨fun hle => ?_, fun hgt => ?_⟩,
    rfl, rfl, by decide⟩
  · simp [get_room, h, hle]
  · simp [get_room, h, hgt, statusOf, dictGet_dictSet]

/-- Witness for C2 at a concrete expired room. -/
theorem c2_get_room_contract_witness :
    (get_room 7201 stActive "r").2 = Except.error HTTPError.gone ∧
    statusOf (get_room 7201 stActive "r").1 "r" = some "expired" := by
  have h := ((c2_get_room_contract 7201 stActive "r").2.1 roomActive (by decide)).2 (by decide)
  exact ⟨h.1, h.2.1⟩

/-- Claim C3 counterexample: the claim says a duplicate `join` of the same
handle to the same room leaves the Connection Directory unchanged (set
semantics).  Concretely, joining `"s1"` to room `"r"` twice leaves the
directory holding `["s1", "s1"]`, which differs from the state after the
first add. -/
theorem c3_duplicate_join_changes_directory :
    (join (join stActive "s1" dJoin).1 "s1" dJoin).1.room_connections ≠
      (join stActive "s1" dJoin).1.room_connections ∧
    dictGet (join stActive "s1" dJoin).1.room_connections "r" = some ["s1"] ∧
    dictGet (join (join stActive "s1" dJoin).1 "s1" dJoin).1.room_connections "r" =
      some ["s1", "s1"] := by decide

/-- Claim C3 as amended: a duplicate `join` of the same handle is *not*
idempotent at the directory level — the room's connection list is a Python
list and `join` appends unconditionally, so the duplicate add appends a second
copy of the handle; only the transport broadcast-group membership is
idempotent, and the `user_joined` broadcast is re-triggered. -/
theorem c3_duplicate_join_appends (st : ServerState) (sid rid : String)
    (uid role : JVal) (hne : rid ≠ "") (hmem : dictGet st.active_rooms rid ≠ none) :
    dictGet (join st sid ⟨some rid, uid, role⟩).1.room_connections rid =
      some ((dictGet st.room_connections rid).getD [] ++ [sid]) ∧
    dictGet (join (join st sid ⟨some rid, uid, role⟩).1 sid
        ⟨some rid, uid, role⟩).1.room_connections rid =
      some ((dictGet st.room_connections rid).getD [] ++ [sid] ++ [sid]) ∧
    (join (join st sid ⟨some rid, uid, role⟩).1 sid ⟨some rid, uid, role⟩).1.sio_rooms =
      (join st sid ⟨some rid, uid, role⟩).1.sio_rooms ∧
    (join (join st sid ⟨some rid, uid, role⟩).1 sid ⟨some rid, uid, role⟩).2 =
      [⟨"user_joined", [("userId", uid), ("role", role)], Target.room rid (some sid)⟩] := by
  refine ⟨?_, ?_, ?_, ?_⟩ <;>
    simp [join, hne, hmem, dictGet_dictSet, dictSet_dictSet, enter_room_idem]

/-- Witness for C3's amended theorem at a concrete room and session. -/
theorem c3_duplicate_join_appends_witness :
    dictGet (join (join stActive "s1" ⟨some "r", JVal.vStr "u1", JVal.vStr "host"⟩).1 "s1"
        ⟨some "r", JVal.vStr "u1", JVal.vStr "host"⟩).1.room_connections "r" =
      some ((dictGet stActive.room_connections "r").getD [] ++ ["s1"] ++ ["s1"]) :=
  (c3_duplicate_join_appends stActive "s1" "r" (JVal.vStr "u1") (JVal.vStr "host")
    (by decide) (by decide)).2.1

/-- Claim C4 counterexample: the claim says a room whose status is `"ended"`
never transitions back to `"expired"`, including via `get`'s lazy expiry
check.  Concretely, reading an ended room whose `expiresAt` has passed flips
its stored status from `"ended"` to `"expired"`. -/
theorem c4_ended_room_lazily_expired :
    statusOf stEnded "r" = some "ended" ∧
    statusOf (get_room 7201 stEnded "r").1 "r" = some "expired" ∧
    (get_room 7201 stEnded "r").2 = Except.error HTTPError.gone := by decide

/-- Claim C4 as amended: the status transitions performed by the operations
are exactly these — `get` sets a room's status to `"expired"` whenever
`now > expiresAt`, *regardless of the prior status* (so an `"ended"` room can
lapse back to `"expired"` on read), and `end` sets the status of the room
named by the event to `"ended"` regardless of prior status; otherwise every
status is left unchanged.  Monotonicity of `"ended"` therefore does not hold,
and the lazy transition on read is `* → expired`, not only
`active → expired`. -/
theorem c4_status_transitions (now : Nat) (st : ServerState) (rid q : String) :
    (statusOf (get_room now st rid).1 q = statusOf st q ∨
      (q = rid ∧ statusOf (get_room now st rid).1 q = some "expired" ∧
        ∃ info, dictGet st.active_rooms rid = some info ∧ now > info.expiresAt)) ∧
    (∀ sid d, statusOf (end_event st sid d).1 q = statusOf st q ∨
      (d.roomId = some q ∧ statusOf (end_event st sid d).1 q = some "ended")) := by
  constructor
  · cases h : dictGet st.active_rooms rid with
    | none => left; simp [get_room, h]
    | some info =>
      by_cases hgt : now > info.expiresAt
      · by_cases hq : q = rid
        · right
          subst hq
          refine ⟨rfl, ?_, ⟨info, rfl, hgt⟩⟩
          simp [get_room, h, hgt, statusOf, dictGet_dictSet]
        · left
          have hq' : ¬ q = rid := hq
          have hq2 : ¬ rid = q := fun hh => hq hh.symm
          simp [get_room, h, hgt, statusOf, dictGet_dictSet, hq2]
      · left; simp [get_room, h, hgt]
  · intro sid d
    cases hd : d.roomId with
    | none => left; simp [end_event, hd]
    | some room_id =>
      by_cases he : room_id = ""
      · left; simp [end_event, hd, he]
      · cases h : dictGet st.active_rooms room_id with
        | none => left; simp [end_event, hd, he, h]
        | some info =>
          by_cases hq : room_id = q
          · right
            subst hq
            exact ⟨rfl, by simp [end_event, hd, he, h, statusOf, dictGet_dictSet]⟩
          · left
            simp [end_event, hd, he, h, statusOf, dictGet_dictSet, hq]

/-- Witness for C4's amended theorem: instantiating it on an `end` event for
the active room `"r"` pins the status transition to `"ended"`. -/
theorem c4_status_transitions_witness :
    statusOf (end_event stActive "s1" ⟨some "r", JVal.vStr "done"⟩).1 "r" =
      some "ended" := by
  rcases (c4_status_transitions 0 stActive "r" "r").2 "s1"
      ⟨some "r", JVal.vStr "done"⟩ with h | h
  · exact absurd h (by decide)
  · exact h.2

/-- Claim C5: a `join` whose `roomId` is missing (or empty, hence falsy) or
not registered unicasts `error{message}` back to the originating session only
— the single emission targets the sender's personal group, not a room — and
the entire server state (Room Registry, Connection Directory, broadcast
groups) is returned unchanged. -/
theorem c5_join_room_missing (st : ServerState) (sid : String) (d : JoinData)
    (h : d.roomId = none ∨
      ∃ rid, d.roomId = some rid ∧ (rid = "" ∨ dictGet st.active_rooms rid = none)) :
    join st sid d =
      (st, [⟨"error", [("message", JVal.vStr "Room not found")], Target.session sid⟩]) := by
  rcases h with h | ⟨rid, hrid, h2⟩
  · simp [join, h]
  · rcases h2 with h2 | h2 <;> simp [join, hrid, h2]

/-- Witness for C5: joining a room id that is not registered. -/
theorem c5_join_room_missing_witness :
    join stActive "s9" ⟨some "ghost", JVal.vStr "u", JVal.vNone⟩ =
      (stActive,
       [⟨"error", [("message", JVal.vStr "Room not found")], Target.session "s9"⟩]) :=
  c5_join_room_missing stActive "s9" ⟨some "ghost", JVal.vStr "u", JVal.vNone⟩
    (Or.inr ⟨"ghost", rfl, Or.inr (by decide)⟩)

/-- Claim C6: with a non-empty `roomId`, each of `offer` / `answer` /
`candidate` leaves the state unchanged and produces exactly one broadcast of
the same event name, payload `{from, sdp}` (resp. `{from, candidate}`) with
the sender-supplied `from` field, targeted at the room with the sender
excluded: the sender never receives its own relay, while any other member of
the room's broadcast group does.  With a missing or empty `roomId` the event
is silently dropped: no emission, no state change. -/
theorem c6_relay_contract (st : ServerState) (sid : String) (d : SignalData) :
    (∀ rid, d.roomId = some rid → rid ≠ "" →
      offer st sid d =
        (st, [⟨"offer", [("from", d.from_user), ("sdp", d.sdp)],
              Target.room rid (some sid)⟩]) ∧
      answer st sid d =
        (st, [⟨"answer", [("from", d.from_user), ("sdp", d.sdp)],
              Target.room rid (some sid)⟩]) ∧
      candidate st sid d =
        (st, [⟨"candidate", [("from", d.from_user), ("candidate", d.candidate)],
              Target.room rid (some sid)⟩]) ∧
      deliveredTo st.sio_rooms
        ⟨"offer", [("from", d.from_user), ("sdp", d.sdp)],
         Target.room rid (some sid)⟩ sid = false ∧
      (∀ x, x ∈ groupMembers st.sio_rooms rid → x ≠ sid →
        deliveredTo st.sio_rooms
          ⟨"candidate", [("from", d.from_user), ("candidate", d.candidate)],
           Target.room rid (some sid)⟩ x = true)) ∧
    ((d.roomId = none ∨ d.roomId = some "") →
      offer st sid d = (st, []) ∧ answer st sid d = (st, []) ∧
      candidate st sid d = (st, [])) := by
  constructor
  · intro rid hrid hne
    refine ⟨by simp [offer, hrid, hne], by simp [answer, hrid, hne],
      by simp [candidate, hrid, hne], by simp [deliveredTo], ?_⟩
    intro x hx hxs
    have hsx : sid ≠ x := fun hh => hxs hh.symm
    simp [deliveredTo, hx, hsx]
  · rintro (h | h) <;>
      exact ⟨by simp [offer, h], by simp [answer, h], by simp [candidate, h]⟩

/-- Witness for C6: session `"s1"` relays a candidate in room `"r"`; member
`"s2"` receives it while the sender does not. -/
theorem c6_relay_contract_witness :
    candidate stTwoMembers "s1"
        ⟨some "r", JVal.vNone, JVal.vObj "cand1", JVal.vStr "alice"⟩ =
      (stTwoMembers,
       [⟨"candidate", [("from", JVal.vStr "alice"), ("candidate", JVal.vObj "cand1")],
         Target.room "r" (some "s1")⟩]) :=
  ((c6_relay_contract stTwoMembers "s1"
      ⟨some "r", JVal.vNone, JVal.vObj "cand1", JVal.vStr "alice"⟩).1
    "r" rfl (by decide)).2.2.1

/-- Claim C7: a `leave` with non-empty `roomId` removes the sender from the
room's broadcast group entirely and removes its first occurrence from the
room's connection list when present (a no-op when the room or the handle is
absent — so under the intended at-most-one-occurrence discipline the handle is
gone from the directory), broadcasts `user_left{userId}` to the room with no
`skip_sid` (everyone still in the group receives it), leaves the Room Registry
untouched, and afterwards an `offer` sent by any former room-mate is not
delivered to the departed session. -/
theorem c7_leave_contract (st : ServerState) (sid rid : String) (uid : JVal)
    (hne : rid ≠ "") :
    (leave st sid ⟨some rid, uid⟩).2 =
      [⟨"user_left", [("userId", uid)], Target.room rid none⟩] ∧
    (leave st sid ⟨some rid, uid⟩).1.active_rooms = st.active_rooms ∧
    (leave st sid ⟨some rid, uid⟩).1.sio_rooms = leave_room st.sio_rooms sid rid ∧
    sid ∉ groupMembers (leave st sid ⟨some rid, uid⟩).1.sio_rooms rid ∧
    (dictGet st.room_connections rid = none →
      (leave st sid ⟨some rid, uid⟩).1.room_connections = st.room_connections) ∧
    (∀ conns, dictGet st.room_connections rid = some conns →
      (sid ∉ conns →
        (leave st sid ⟨some rid, uid⟩).1.room_connections = st.room_connections) ∧
      (sid ∈ conns →
        dictGet (leave st sid ⟨some rid, uid⟩).1.room_connections rid =
          some (removeFirst conns sid) ∧
        (countOcc conns sid ≤ 1 → sid ∉ removeFirst conns sid))) ∧
    (∀ x, x ∈ groupMembers (leave st sid ⟨some rid, uid⟩).1.sio_rooms rid →
      deliveredTo (leave st sid ⟨some rid, uid⟩).1.sio_rooms
        ⟨"user_left", [("userId", uid)], Target.room rid none⟩ x = true) ∧
    (∀ s2 d2, d2.roomId = some rid →
      ∀ e ∈ (offer (leave st sid ⟨some rid, uid⟩).1 s2 d2).2,
        deliveredTo (leave st sid ⟨some rid, uid⟩).1.sio_rooms e sid = false) := by
  have hbase :
      (leave st sid ⟨some rid, uid⟩).2 =
        [⟨"user_left", [("userId", uid)], Target.room rid none⟩] ∧
      (leave st sid ⟨some rid, uid⟩).1.active_rooms = st.active_rooms ∧
      (leave st sid ⟨some rid, uid⟩).1.sio_rooms = leave_room st.sio_rooms sid rid := by
    cases hc : dictGet st.room_connections rid with
    | none => refine ⟨?_, ?_, ?_⟩ <;> simp [leave, hne, hc]
    | some conns =>
      by_cases hm : sid ∈ conns
      · refine ⟨?_, ?_, ?_⟩ <;> simp [leave, hne, hc, hm]
      · refine ⟨?_, ?_, ?_⟩ <;> simp [leave, hne, hc, hm]
  obtain ⟨hems, hreg, hsio⟩ := hbase
  have hnot : sid ∉ groupMembers (leave st sid ⟨some rid, uid⟩).1.sio_rooms rid := by
    rw [hsio]; exact not_mem_leave_room _ _ _
  refine ⟨hems, hreg, hsio, hnot, ?_, ?_, ?_, ?_⟩
  · intro hc; simp [leave, hne, hc]
  · intro conns hc
    constructor
    · intro hm; simp [leave, hne, hc, hm]
    · intro hm
      refine ⟨?_, fun hcount => not_mem_removeFirst hcount⟩
      simp [leave, hne, hc, hm, dictGet_dictSet]
  · intro x hx
    simp [deliveredTo, hx]
  · intro s2 d2 hd2 e he
    simp [offer, hd2, hne] at he
    subst he
    simp [deliveredTo, hnot]

/-- Witness for C7: `"s1"` leaves room `"r"` in a two-member state; its entry
is removed from the connection list. -/
theorem c7_leave_contract_witness :
    dictGet (leave stTwoMembers "s1" ⟨some "r", JVal.vStr "u1"⟩).1.room_connections "r" =
      some (removeFirst ["s1", "s2"] "s1") :=
  ((((c7_leave_contract stTwoMembers "s1" "r" (JVal.vStr "u1")
      (by decide)).2.2.2.2.2.1) ["s1", "s2"] (by decide)).2 (by decide)).1

/-- Claim C8: an `end` with non-empty `roomId` marks the room `"ended"` when
registered — regardless of prior status (the update is quantified over any
stored `info`) and idempotently (a second `end` leaves the state fixed) — is a
no-op on the state when the id is absent, never touches the Connection
Directory or the broadcast groups, and broadcasts `call_ended{reason}` to the
room with no `skip_sid`, so every current group member, the sender included,
receives it. -/
theorem c8_end_contract (st : ServerState) (sid : String) (rid : String)
    (reason : JVal) (hne : rid ≠ "") :
    (end_event st sid ⟨some rid, reason⟩).2 =
      [⟨"call_ended", [("reason", reason)], Target.room rid none⟩] ∧
    (end_event st sid ⟨some rid, reason⟩).1.room_connections = st.room_connections ∧
    (end_event st sid ⟨some rid, reason⟩).1.sio_rooms = st.sio_rooms ∧
    (dictGet st.active_rooms rid = none →
      (end_event st sid ⟨some rid, reason⟩).1 = st) ∧
    (∀ info, dictGet st.active_rooms rid = some info →
      (end_event st sid ⟨some rid, reason⟩).1.active_rooms =
        dictSet st.active_rooms rid { info with status := "ended" } ∧
      statusOf (end_event st sid ⟨some rid, reason⟩).1 rid = some "ended" ∧
      (end_event (end_event st sid ⟨some rid, reason⟩).1 sid ⟨some rid, reason⟩).1 =
        (end_event st sid ⟨some rid, reason⟩).1) ∧
    (∀ x, x ∈ groupMembers st.sio_rooms rid →
      deliveredTo (end_event st sid ⟨some rid, reason⟩).1.sio_rooms
        ⟨"call_ended", [("reason", reason)], Target.room rid none⟩ x = true) := by
  have hsio : (end_event st sid ⟨some rid, reason⟩).1.sio_rooms = st.sio_rooms := by
    cases h : dictGet st.active_rooms rid <;> simp [end_event, hne, h]
  refine ⟨?_, ?_, hsio, ?_, ?_, ?_⟩
  · cases h : dictGet st.active_rooms rid <;> simp [end_event, hne, h]
  · cases h : dictGet st.active_rooms rid <;> simp [end_event, hne, h]
  · intro h; simp [end_event, hne, h]
  · intro info h
    refine ⟨?_, ?_, ?_⟩
    · simp [end_event, hne, h]
    · simp [end_event, hne, h, statusOf, dictGet_dictSet]
    · simp [end_event, hne, h, dictGet_dictSet, dictSet_dictSet]
  · intro x hx
    rw [hsio]
    simp [deliveredTo, hx]

/-- Witness for C8: ending room `"r"` while it is registered with `"expired"`
status still sets it to `"ended"`. -/
theorem c8_end_contract_witness :
    statusOf (end_event stExpired "s1" ⟨some "r", JVal.vStr "timeout"⟩).1 "r" =
      some "ended" :=
  ((c8_end_contract stExpired "s1" "r" (JVal.vStr "timeout")
      (by decide)).2.2.2.2.1 roomExpired (by decide)).2.1

/-- Claim C9: on transport disconnect the handler scans every entry of the
Connection Directory (so a handle registered under more than one room is
handled in each): wherever the sid occurs it is removed (its first occurrence
— complete removal under the at-most-one-occurrence discipline), and a
`leave{userId = sid}` broadcast targeted at exactly those rooms, with
`skip_sid` set to the disconnected session, is emitted; rooms not containing
the sid, the Room Registry and the broadcast groups are untouched, and none of
the departure broadcasts is delivered to the disconnected session itself.
The hypothesis that the directory's keys are distinct is the Python-dict
invariant (one entry per room id). -/
theorem c9_disconnect_contract (st : ServerState) (sid : String)
    (hkeys : (st.room_connections.map Prod.fst).Nodup) :
    (disconnect st sid).1.active_rooms = st.active_rooms ∧
    (disconnect st sid).1.sio_rooms = st.sio_rooms ∧
    (∀ rid conns, dictGet st.room_connections rid = some conns →
      dictGet (disconnect st sid).1.room_connections rid =
        some (if sid ∈ conns then removeFirst conns sid else conns) ∧
      (countOcc conns sid ≤ 1 →
        sid ∉ (if sid ∈ conns then removeFirst conns sid else conns))) ∧
    (∀ rid,
      ((⟨"leave", [("userId", JVal.vStr sid)], Target.room rid (some sid)⟩ : Emission) ∈
          (disconnect st sid).2 ↔
        ∃ conns, dictGet st.room_connections rid = some conns ∧ sid ∈ conns)) ∧
    (∀ e ∈ (disconnect st sid).2,
      ∃ rid, e = ⟨"leave", [("userId", JVal.vStr sid)], Target.room rid (some sid)⟩) ∧
    (∀ e ∈ (disconnect st sid).2, ∀ g, deliveredTo g e sid = false) := by
  have hdc : (disconnect st sid).2 =
      st.room_connections.filterMap (fun p =>
        if sid ∈ p.2 then
          some ⟨"leave", [("userId", JVal.vStr sid)], Target.room p.1 (some sid)⟩
        else none) := rfl
  refine ⟨rfl, rfl, ?_, ?_, ?_, ?_⟩
  · intro rid conns hc
    constructor
    · exact (dictGet_map st.room_connections
        (fun l => if sid ∈ l then removeFirst l sid else l) rid).trans (by rw [hc]; rfl)
    · intro hcount
      by_cases hm : sid ∈ conns
      · rw [if_pos hm]; exact not_mem_removeFirst hcount
      · rw [if_neg hm]; exact hm
  · intro rid
    constructor
    · intro he
      rw [hdc] at he
      obtain ⟨p, hp, hfp⟩ := List.mem_filterMap.mp he
      by_cases hm : sid ∈ p.2
      · rw [if_pos hm] at hfp
        have hrid : p.1 = rid := by
          have h1 := congrArg Emission.target (Option.some.inj hfp)
          simpa using h1
        refine ⟨p.2, mem_dictGet_of_nodup hkeys ?_, hm⟩
        rw [← hrid]
        simpa using hp
      · rw [if_neg hm] at hfp; cases hfp
    · rintro ⟨conns, hc, hm⟩
      rw [hdc]
      exact List.mem_filterMap.mpr ⟨(rid, conns), dictGet_mem hc, by simp [hm]⟩
  · intro e he
    rw [hdc] at he
    obtain ⟨p, hp, hfp⟩ := List.mem_filterMap.mp he
    by_cases hm : sid ∈ p.2
    · rw [if_pos hm] at hfp
      exact ⟨p.1, (Option.some.inj hfp).symm⟩
    · rw [if_neg hm] at hfp; cases hfp
  · intro e he g
    rw [hdc] at he
    obtain ⟨p, hp, hfp⟩ := List.mem_filterMap.mp he
    by_cases hm : sid ∈ p.2
    · rw [if_pos hm] at hfp
      rw [← Option.some.inj hfp]
      simp [deliveredTo]
    · rw [if_neg hm] at hfp; cases hfp

/-- Witness for C9: disconnecting `"s"`, which is joined to both `"r1"` and
`"r2"`, emits the departure broadcast in `"r2"` (and `"r1"`) as the iff
instantiates. -/
theorem c9_disconnect_contract_witness :
    (⟨"leave", [("userId", JVal.vStr "s")], Target.room "r2" (some "s")⟩ : Emission) ∈
      (disconnect stTwoRooms "s").2 :=
  ((c9_disconnect_contract stTwoRooms "s" (by decide)).2.2.2.1 "r2").mpr
    ⟨["s"], by decide, by decide⟩

/-- Claim C10: `join` checks only membership of the `roomId` in the registry —
the theorem quantifies over every state in which the id is registered, with no
constraint on `status` or `expiresAt`, so it covers rooms past expiry or
marked `"expired"` / `"ended"` — and on success registers the session,
broadcasts `user_joined`, and leaves `active_rooms` (hence every room's
`status` and `expiresAt`) completely unchanged: the expiry side effect never
runs on the join path, only `get_room` mutates status on read. -/
theorem c10_join_no_expiry_side_effect (st : ServerState) (sid rid : String)
    (uid role : JVal) (hne : rid ≠ "") (hmem : dictGet st.active_rooms rid ≠ none) :
    (join st sid ⟨some rid, uid, role⟩).1.active_rooms = st.active_rooms ∧
    statusOf (join st sid ⟨some rid, uid, role⟩).1 rid = statusOf st rid ∧
    (join st sid ⟨some rid, uid, role⟩).2 =
      [⟨"user_joined", [("userId", uid), ("role", role)], Target.room rid (some sid)⟩] ∧
    dictGet (join st sid ⟨some rid, uid, role⟩).1.room_connections rid =
      some ((dictGet st.room_connections rid).getD [] ++ [sid]) ∧
    sid ∈ groupMembers (join st sid ⟨some rid, uid, role⟩).1.sio_rooms rid := by
  refine ⟨?_, ?_, ?_, ?_, ?_⟩ <;>
    simp [join, hne, hmem, statusOf, dictGet_dictSet, mem_enter_room]

/-- Witness for C10: joining room `"r"` while it is `"ended"` and past its
`expiresAt` still succeeds and leaves the registry entry untouched. -/
theorem c10_join_no_expiry_side_effect_witness :
    (join stEnded "s1" ⟨some "r", JVal.vStr "u1", JVal.vStr "host"⟩).1.active_rooms =
      stEnded.active_rooms ∧
    statusOf (join stEnded "s1" ⟨some "r", JVal.vStr "u1", JVal.vStr "host"⟩).1 "r" =
      some "ended" := by
  have h := c10_join_no_expiry_side_effect stEnded "s1" "r" (JVal.vStr "u1")
    (JVal.vStr "host") (by decide) (by decide)
  exact ⟨h.1, by rw [h.2.1]; decide⟩

end Backend
